import Mathlib

/-!
Verification development for the BaladyClone geoprocessing worker.

The repository consists of a proof-of-concept GeoTIFF processor
(`src/geotiff-processor-poc/main.py`) and a pull-based worker
(`src/geoprocessing-worker/worker.py`, `processor.py`, `file_manager.py`).
Below, each Python function relevant to the checked properties is shallowly
embedded as an executable Lean definition.  External effects (HTTP responses,
stream chunks, raster-library success or failure) are supplied by explicit
environment records; the filesystem is an explicit state value.
-/

/-! ## Model of `geotiff-processor-poc/main.py` -/

/-- The six coefficients of a rasterio affine transform, as exposed by
`dataset.transform`: mapping is `x = a*col + b*row + c`, `y = d*col + e*row + f`.
So `a` is the x-scale, `b` the row-rotation coefficient, `d` the
column-rotation coefficient, `e` the y-scale, `c` the origin x and `f` the
origin y. -/
structure Affine where
  a : ℚ
  b : ℚ
  c : ℚ
  d : ℚ
  e : ℚ
  f : ℚ
deriving DecidableEq, Repr

/-- Embedding of `create_world_file` (main.py lines 67-80): the file content is
modelled as the list of numeric values written, one `f.write` per line, in the
exact order of the source: `transform.a`, `transform.b`, `transform.d`,
`transform.e`, `transform.c`, `transform.f`. -/
def create_world_file (t : Affine) : List ℚ :=
  let ls : List ℚ := []
  let ls := ls ++ [t.a]
  let ls := ls ++ [t.b]
  let ls := ls ++ [t.d]
  let ls := ls ++ [t.e]
  let ls := ls ++ [t.c]
  let ls := ls ++ [t.f]
  ls

/-- Maximum of a band, as `numpy.ndarray.max()` over a non-empty array; on the
empty list we return the default 0 (numpy would raise, the callers always pass
a freshly read non-empty band). -/
def np_max (l : List ℚ) : ℚ := l.foldl max (l.headD 0)

/-- Minimum of a band, as `numpy.ndarray.min()`. -/
def np_min (l : List ℚ) : ℚ := l.foldl min (l.headD 0)

/-- The divisor used by the rescaling expression in `convert_to_png`
(main.py line 52): `data.max() - data.min()`. -/
def convert_to_png_divisor (l : List ℚ) : ℚ := np_max l - np_min l

/-- The guard in front of the rescaling (main.py line 51): `if data.max() > 0`.
The guard does not compare the maximum against the minimum. -/
def convert_to_png_guard (l : List ℚ) : Bool := np_max l > 0

/-- Embedding of the value-normalization step of `convert_to_png`
(main.py lines 50-53), before the `astype(np.uint8)` cast: when the guard
passes, every value is rescaled by `(v - min) / (max - min) * 255`; otherwise
the data is left untouched and is cast directly to 8-bit. -/
def convert_to_png_normalize (l : List ℚ) : List ℚ :=
  if np_max l > 0 then
    l.map (fun v => (v - np_min l) / (np_max l - np_min l) * 255)
  else
    l

/-! ## Model of `geoprocessing-worker/processor.py` -/

/-- Outcome of the external operations performed for one input file by
`GeoprocessingProcessor.process_geotiff_advanced`.  Each flag records whether
the corresponding fallible source operation succeeds in the run being
modelled:
* `validOk`    — `validate_geotiff_file` returns `valid: True` (processor.py 255);
* `metadataOk` — the whole metadata stage body (`extract_metadata` plus the
  JSON write, processor.py 278-289) runs without raising.  `generate_statistics`
  catches internally and always returns a dict, so it cannot fail the stage;
* `pngOk`      — `convert_to_png` and the surrounding stage body (300-308);
* `worldOk`    — `create_world_file` stage body (316-324);
* `thumbOk`    — the boolean returned by `create_thumbnail` (338), which
  catches its own exceptions and returns `False` on failure. -/
structure StageEnv where
  validOk : Bool
  metadataOk : Bool
  pngOk : Bool
  worldOk : Bool
  thumbOk : Bool
deriving DecidableEq, Repr

/-- The processor configuration fields read by `process_geotiff_advanced`
(processor.py 44-50). -/
structure ProcConfig where
  generate_thumbnails : Bool
  include_statistics : Bool
deriving DecidableEq, Repr

/-- Default configuration (processor.py 48, 50). -/
def procConfigDefault : ProcConfig := ⟨true, true⟩

/-- The per-file result record built by `process_geotiff_advanced`:
`output_files` keys in insertion order, and the `errors` list. -/
structure FileResult where
  output_files : List String
  errors : List String
deriving DecidableEq, Repr

/-- The derived `summary['has_errors']` flag (processor.py 354):
`len(result['errors']) > 0`. -/
def FileResult.has_errors (r : FileResult) : Bool := r.errors ≠ []

/-- Embedding of `GeoprocessingProcessor.process_geotiff_advanced`
(processor.py 248-362).  An invalid file raises (line 257), modelled as
`Except.error`.  Each of the four stages runs in its own try/except: a failing
stage appends to `errors` and contributes no output file; the thumbnail stage
adds an output only when `create_thumbnail` returned `True` and never appends
an error for a `False` return. -/
def process_geotiff_advanced (cfg : ProcConfig) (e : StageEnv) :
    Except String FileResult :=
  if ¬ e.validOk then
    .error "Invalid GeoTIFF file"
  else
    let s1 : List String × List String :=
      if e.metadataOk then (["metadata"], []) else ([], ["Metadata extraction failed"])
    let s2 : List String × List String :=
      if e.pngOk then (["png"], []) else ([], ["PNG conversion failed"])
    let s3 : List String × List String :=
      if e.worldOk then (["world_file"], []) else ([], ["World file creation failed"])
    let s4 : List String :=
      if cfg.generate_thumbnails && e.thumbOk then ["thumbnail"] else []
    .ok { output_files := s1.1 ++ s2.1 ++ s3.1 ++ s4
          errors := s1.2 ++ s2.2 ++ s3.2 }

/-- One input file handed to `batch_process_files`: its basename
(`os.path.basename(input_file)`, the key used for the per-file record) and
the stage outcomes of its processing run. -/
structure InputFile where
  basename : String
  env : StageEnv
deriving Repr

/-- Python dict assignment `d[k] = v`: if the key is present its value is
replaced in place (the key keeps its position), otherwise the pair is appended.
This models `batch_result['files'][basename] = record`. -/
def dictInsert {α : Type} (l : List (String × α)) (k : String) (v : α) :
    List (String × α) :=
  if l.any (fun p => p.1 = k) then
    l.map (fun p => if p.1 = k then (k, v) else p)
  else
    l ++ [(k, v)]

/-- The mutable state accumulated by the loop of `batch_process_files`:
the `files` dict (basename → record, where a record is either a file result or
the error record written in the except branch) and the summary counters. -/
structure BatchState where
  files : List (String × Except String FileResult)
  successful : Nat
  failed : Nat
deriving Repr

/-- One iteration of the loop of `batch_process_files` (processor.py 380-408):
on a normal `process_geotiff_advanced` return the record is stored and the
`successful`/`failed` counter incremented according to `has_errors`
(lines 390-395); on an exception the error record is stored under the same
basename key and `failed` is incremented (lines 399-408). -/
def batch_step (cfg : ProcConfig) (st : BatchState) (f : InputFile) : BatchState :=
  match process_geotiff_advanced cfg f.env with
  | .ok r =>
      { files := dictInsert st.files f.basename (.ok r)
        successful := if r.has_errors then st.successful else st.successful + 1
        failed := if r.has_errors then st.failed + 1 else st.failed }
  | .error e =>
      { files := dictInsert st.files f.basename (.error e)
        successful := st.successful
        failed := st.failed + 1 }

/-- Embedding of `GeoprocessingProcessor.batch_process_files`
(processor.py 364-417): fold the per-file step over the input list, starting
from the empty dict and zero counters. -/
def batch_process_files (cfg : ProcConfig) (inputs : List InputFile) : BatchState :=
  inputs.foldl (batch_step cfg) ⟨[], 0, 0⟩

/-! ## Model of `geoprocessing-worker/file_manager.py` -/

/-- The size ceiling configured in `FileManager.__init__`
(file_manager.py 44): `100 * 1024 * 1024` bytes. -/
def fm_max_file_size : Nat := 100 * 1024 * 1024

/-- Environment of one call to `FileManager._download_file_from_url`:
the HTTP status of the streamed response, the byte sizes of the chunks the
stream would yield, and an optional network failure occurring before chunk
number `k` is received (an exception raised by the stream mid-transfer). -/
structure DlEnv where
  status : Nat
  chunks : List Nat
  netFailBefore : Option Nat
deriving Repr

/-- The chunk loop of `_download_file_from_url` (file_manager.py 138-145):
each chunk is written to the local file, the running total incremented, and
then the ceiling is checked; exceeding it raises.  A mid-stream network
failure also raises.  The return value is the final byte total on success. -/
def dl_loop : List Nat → Nat → Option Nat → Except String Nat
  | [], total, _ => .ok total
  | c :: rest, total, failB =>
    match failB with
    | some 0 => .error "network failure during transfer"
    | _ =>
      let total := total + c
      if total > fm_max_file_size then
        .error "File size exceeds limit"
      else
        dl_loop rest total (failB.map (fun k => k - 1))

/-- Embedding of `FileManager._download_file_from_url`
(file_manager.py 126-156).  Returns the result of the call together with the
final on-disk state of the local file: `some n` when a file of `n` bytes is
retained, `none` when no file exists.  A non-200 status raises before the
file is ever opened (line 134-135); any exception from the body causes the
outer handler (lines 149-156) to unlink the partial file before re-raising. -/
def download_file_from_url (env : DlEnv) : Except String Nat × Option Nat :=
  if env.status ≠ 200 then
    (.error "Download failed with status", none)
  else
    match dl_loop env.chunks 0 env.netFailBefore with
    | .ok total => (.ok total, some total)
    | .error e => (.error e, none)

/-- Truth of "this `Except` is an error". -/
def exceptFails {ε α : Type} : Except ε α → Bool
  | .error _ => true
  | .ok _ => false

/-! ## Model of `geoprocessing-worker/worker.py`

The worker processes one claimed job.  The filesystem state is explicit:
directories and files are identified abstractly by the index of the input
file they were created for.  Network and raster-library outcomes are supplied
by a `JobEnv` environment. -/

/-- A temporary directory of the job workspace.  `inDir i` is the directory
created by `tempfile.mkdtemp(prefix=f"geojob_{id}_")` for input file `i`
(worker.py 229); `outDir i` is the output directory
`tempfile.mkdtemp(prefix=f"output_{id}_")` created for processing input `i`
(worker.py 330). -/
inductive WDir
  | inDir (i : Nat)
  | outDir (i : Nat)
deriving DecidableEq, Repr

/-- A file of the job workspace: the staged input file `i`, or one of the
three outputs the PoC produces for input `i` (worker.py 340-344). -/
inductive WFile
  | inFile (i : Nat)
  | png (i : Nat)
  | pgw (i : Nat)
  | meta (i : Nat)
deriving DecidableEq, Repr

/-- Directory containing a workspace file, as computed by `os.path.dirname`. -/
def WFile.dirname : WFile → WDir
  | .inFile i => .inDir i
  | .png i => .outDir i
  | .pgw i => .outDir i
  | .meta i => .outDir i

/-- Explicit filesystem state: the temp directories and the files that exist. -/
structure WFS where
  dirs : List WDir
  files : List WFile
deriving DecidableEq, Repr

/-- The empty workspace before the job starts. -/
def wfsEmpty : WFS := ⟨[], []⟩

/-- Embedding of `GeoprocessingWorker.cleanup_temp_files` (worker.py 396-414):
for each path that exists, its directory is recorded and the file unlinked;
afterwards every recorded directory that is now empty is removed.  A
directory that contained none of the listed paths is never recorded and hence
never removed, even if it is empty. -/
def cleanup_temp_files (paths : List WFile) (fs : WFS) : WFS :=
  let tempDirs : List WDir :=
    (paths.filter (fun p => decide (p ∈ fs.files))).map WFile.dirname
  let files1 : List WFile := fs.files.filter (fun p => decide (p ∉ paths))
  let dirs1 : List WDir := fs.dirs.filter (fun d =>
    ! (decide (d ∈ tempDirs) && decide (∀ p ∈ files1, p.dirname ≠ d)))
  ⟨dirs1, files1⟩

/-- One entry of the `files` list returned by the input-download listing
endpoint, together with the external outcomes for that file:
* `isTiff`       — the file name ends in `.tif`/`.tiff`/`.geotiff`
  (checked at worker.py 325);
* `hasError`     — the listing entry carries an `error` key (worker.py 224);
* `streamStatus` — HTTP status of the streamed download (worker.py 234);
* `byteLen`      — bytes written when the stream succeeds (a zero-byte input
  has `byteLen = 0` and still downloads successfully);
* `procFails`    — whether `process_geotiff` raises for this file
  (worker.py 333). -/
structure WFileInfo where
  isTiff : Bool
  hasError : Bool
  streamStatus : Nat
  byteLen : Nat
  procFails : Bool
deriving DecidableEq, Repr, Inhabited

/-- Environment of one `process_job` run: outcomes of every external call. -/
structure JobEnv where
  /-- Task type routing (worker.py 433): `True` iff `taskType` is
  `geotiff_to_png`. -/
  taskSupported : Bool
  /-- HTTP status of `GET /download/input` (worker.py 213). -/
  urlListStatus : Nat
  /-- The file entries of the listing (worker.py 217). -/
  filesInfo : List WFileInfo
  /-- HTTP status of the terminal `complete` call (worker.py 173). -/
  completeStatus : Nat
  /-- Heartbeats fired by the concurrent `heartbeat_loop` task while the
  processing body runs (each `heartbeat_interval`, worker.py 483-485). -/
  heartbeatsDuring : Nat
  /-- Whether the heartbeat task fires once more while the terminal HTTP call
  is awaited, before the `finally` block cancels it (worker.py 468-474):
  the terminal call is a suspension point, so the sleeping heartbeat loop may
  resume in between. -/
  heartbeatAfterTerminal : Bool
  /-- Wall-clock seconds from claim to terminal transition.  The code computes
  `processing_time` only for the log line at worker.py 446-447. -/
  processingDuration : Nat
deriving Repr

/-- The configured `MAX_PROCESSING_TIME` (worker.py 79, default 3600 s).
It is assigned in `__init__` and never read again anywhere in the worker. -/
def max_processing_time : Nat := 3600

/-- The download loop of `GeoprocessingWorker.download_input_files`
(worker.py 223-242) over the listing entries, numbering them by index:
an entry with an `error` key is skipped before any directory is created;
otherwise `mkdtemp` creates the input directory, and the file is written and
collected only when the stream status is 200.  A non-200 stream leaves the
freshly created directory behind and collects nothing. -/
def download_loop : List WFileInfo → Nat → List Nat → WFS → List Nat × WFS
  | [], _, acc, fs => (acc, fs)
  | fi :: rest, i, acc, fs =>
    if fi.hasError then
      download_loop rest (i + 1) acc fs
    else
      let fs := { fs with dirs := fs.dirs ++ [WDir.inDir i] }
      if fi.streamStatus = 200 then
        let fs := { fs with files := fs.files ++ [WFile.inFile i] }
        download_loop rest (i + 1) (acc ++ [i]) fs
      else
        download_loop rest (i + 1) acc fs

/-- Embedding of `GeoprocessingWorker.download_input_files`
(worker.py 203-259).  A non-200 listing response raises (line 214); an empty
listing raises (line 220); both raises happen with no file downloaded yet, so
the partial-download cleanup of the except branch (lines 249-258) is a no-op.
Otherwise the loop runs and the collected local paths (as input indices) are
returned — possibly the empty list, without raising. -/
def download_input_files (env : JobEnv) (fs : WFS) :
    Except String (List Nat) × WFS :=
  if env.urlListStatus ≠ 200 then
    (.error "Failed to get download URLs", fs)
  else if env.filesInfo = [] then
    (.error "No input files found for this job", fs)
  else
    let r := download_loop env.filesInfo 0 [] fs
    (.ok r.1, r.2)

/-- Per-file record appended to `processing_results` (worker.py 347-360):
the input index and whether processing succeeded. -/
structure ProcRecord where
  inputIdx : Nat
  ok : Bool
deriving DecidableEq, Repr

/-- The per-file processing loop of `process_geotiff_job` (worker.py 322-360).
A non-GeoTIFF input is skipped with `continue` and leaves no record
(lines 325-327).  Otherwise the output directory is created (line 330) and
`process_geotiff` runs: on success the three outputs exist and are collected
(lines 340-346); on an exception only an error record is appended
(lines 355-360) — the created output directory remains. -/
def process_loop (env : JobEnv) :
    List Nat → List WFile → List ProcRecord → WFS →
    List WFile × List ProcRecord × WFS
  | [], outs, recs, fs => (outs, recs, fs)
  | i :: rest, outs, recs, fs =>
    let fi := env.filesInfo.getD i default
    if ¬ fi.isTiff then
      process_loop env rest outs recs fs
    else
      let fs := { fs with dirs := fs.dirs ++ [WDir.outDir i] }
      if fi.procFails then
        process_loop env rest outs (recs ++ [⟨i, false⟩]) fs
      else
        let newFiles : List WFile := [WFile.png i, WFile.pgw i, WFile.meta i]
        let fs := { fs with files := fs.files ++ newFiles }
        process_loop env rest (outs ++ newFiles) (recs ++ [⟨i, true⟩]) fs

/-- The value returned by `process_geotiff_job` on success. -/
structure JobOutput where
  output_files : List WFile
  records : List ProcRecord
deriving DecidableEq, Repr

/-- Embedding of `GeoprocessingWorker.process_geotiff_job`
(worker.py 300-394).  Download the inputs; raise when the downloaded list is
empty (line 313-314); process each file; upload (no filesystem effect,
worker.py 261-298 only logs); then `cleanup_temp_files(input_files +
all_output_files)` (line 384) — only on this success path — and return.
The except branch (lines 391-394) re-raises without any cleanup. -/
def process_geotiff_job (env : JobEnv) (fs : WFS) :
    Except String JobOutput × WFS :=
  match download_input_files env fs with
  | (.error e, fs) => (.error e, fs)
  | (.ok dl, fs) =>
    if dl = [] then
      (.error "No input files downloaded", fs)
    else
      let r := process_loop env dl [] [] fs
      let outs := r.1
      let recs := r.2.1
      let fs := r.2.2
      let inputPaths := dl.map WFile.inFile
      let fs := cleanup_temp_files (inputPaths ++ outs) fs
      (.ok ⟨outs, recs⟩, fs)

/-- Observable events of one `process_job` run, in order. -/
inductive Ev
  | heartbeat
  | complete
  | fail (msg : String)
  | cancelHeartbeat
deriving DecidableEq, Repr

/-- Whether an event is a terminal transition (`complete` or `fail`). -/
def Ev.isTerminal : Ev → Bool
  | .complete => true
  | .fail _ => true
  | _ => false

/-- Embedding of `GeoprocessingWorker.process_job` (worker.py 416-476) as the
trace of events it emits, the final filesystem, and its boolean return.
The heartbeat task is started first (line 427); the body routes on the task
type (433-436) and runs `process_geotiff_job`; the terminal transition —
`complete_job` on normal return (439-443), `fail_job` in the except branch
(453-465) — is awaited inside the try/except, and only the `finally` block
(468-474) cancels and awaits the heartbeat task.  Because the terminal call
is itself a suspension point, the environment may schedule one more heartbeat
between it and the cancellation. -/
def process_job (env : JobEnv) (fs : WFS) : List Ev × WFS × Bool :=
  let hbs := List.replicate env.heartbeatsDuring Ev.heartbeat
  let post := if env.heartbeatAfterTerminal then [Ev.heartbeat] else []
  if ¬ env.taskSupported then
    (hbs ++ [Ev.fail "Unsupported task type"] ++ post ++ [Ev.cancelHeartbeat],
     fs, false)
  else
    match process_geotiff_job env fs with
    | (.ok _, fs) =>
        (hbs ++ [Ev.complete] ++ post ++ [Ev.cancelHeartbeat], fs,
         env.completeStatus = 200)
    | (.error e, fs) =>
        (hbs ++ [Ev.fail e] ++ post ++ [Ev.cancelHeartbeat], fs, false)

/-- The body of a JSON claim response (worker.py 112-119): the `success`
flag and the optional job object under `data.job`.  The job is abstracted to
an opaque identifier. -/
structure ClaimBody where
  success : Bool
  job : Option String
deriving DecidableEq, Repr

/-- The observable outcome of the claim HTTP exchange: a transport exception,
or a response with a status code and body. -/
inductive ClaimResponse
  | exception
  | response (status : Nat) (body : ClaimBody)
deriving Repr

/-- Embedding of `GeoprocessingWorker.claim_next_job` (worker.py 101-126):
a 200 response whose body has `success` truthy and a truthy `data.job`
returns the job; a 200 response without a job returns `None` (line 119);
a non-200 response returns `None` (line 122); a raised exception returns
`None` (line 126). -/
def claim_next_job (r : ClaimResponse) : Option String :=
  match r with
  | .exception => none
  | .response status body =>
    if status = 200 then
      if body.success && body.job.isSome then body.job else none
    else
      none

/-! ## Derived predicates and concrete run environments -/

/-- Whether, in a trace, the heartbeat cancellation occurs strictly before the
terminal transition. -/
def hb_cancel_before_terminal (t : List Ev) : Bool :=
  match t.findIdx? (fun e => decide (e = Ev.cancelHeartbeat)),
        t.findIdx? Ev.isTerminal with
  | some ci, some ti => decide (ci < ti)
  | _, _ => false

/-- Whether no heartbeat event occurs after the terminal transition of a
trace. -/
def no_heartbeat_after_terminal (t : List Ev) : Bool :=
  match t.findIdx? Ev.isTerminal with
  | some ti => (t.drop (ti + 1)).all (fun e => decide (e ≠ Ev.heartbeat))
  | none => true

/-- Whether a file processed by `batch_process_files` is counted in the
`successful` summary counter (processor.py 392-395): the run returned
normally and `has_errors` is false. -/
def file_counted_successful (cfg : ProcConfig) (e : StageEnv) : Bool :=
  match process_geotiff_advanced cfg e with
  | .ok r => !r.has_errors
  | .error _ => false

/-- A stage environment in which every operation succeeds. -/
def stageAllOk : StageEnv := ⟨true, true, true, true, true⟩

/-- Run environment for the C1 counterexample: a supported job with one valid
input that processes successfully; one heartbeat fires during processing and
one more fires while the `complete` call is awaited. -/
def envC1 : JobEnv :=
  ⟨true, 200, [⟨true, false, 200, 5, false⟩], 200, 1, true, 10⟩

/-- Run environment for the C4 counterexample: a supported job whose single
listed input file has no `error` key but whose streamed download returns
status 404, so its `mkdtemp` directory is created and nothing is downloaded. -/
def envC4 : JobEnv :=
  ⟨true, 200, [⟨true, false, 404, 0, false⟩], 200, 0, false, 10⟩

/-- Run environment for the C6 counterexample: a supported job whose single
input is a zero-byte `.tif` that downloads successfully (status 200, zero
bytes); `process_geotiff` raises on it. -/
def envC6 : JobEnv :=
  ⟨true, 200, [⟨true, false, 200, 0, true⟩], 200, 1, false, 10⟩

/-- Run environment for C8: a fully successful job whose wall-clock duration,
4000 seconds, exceeds the configured `max_processing_time` of 3600 seconds. -/
def envC8 : JobEnv :=
  ⟨true, 200, [⟨true, false, 200, 5, false⟩], 200, 2, false, 4000⟩

/-! ## Helper lemmas -/

/-- A run of heartbeat events contains no terminal transition. -/
theorem filter_isTerminal_replicate (n : Nat) :
    (List.replicate n Ev.heartbeat).filter Ev.isTerminal = [] := by
  induction n with
  | zero => rfl
  | succ k ih => simp [List.replicate_succ, List.filter_cons, Ev.isTerminal, ih]

/-- The cancellation event is not among a run of heartbeat events. -/
theorem cancel_not_mem_replicate (n : Nat) :
    Ev.cancelHeartbeat ∉ List.replicate n Ev.heartbeat := by
  intro h
  have := (List.mem_replicate.mp h).2
  exact absurd this (by decide)

/-! ## C7: world file line order -/

/-- C7: the georeference side-file written by `create_world_file` contains
exactly six lines, in the fixed source order x-scale (`a`), row-rotation
coefficient (`b`), column-rotation coefficient (`d`), y-scale (`e`),
origin-x (`c`), origin-y (`f`). -/
theorem C7_world_file_six_lines (t : Affine) :
    create_world_file t = [t.a, t.b, t.d, t.e, t.c, t.f] ∧
    (create_world_file t).length = 6 :=
  ⟨rfl, rfl⟩

/-! ## C10: normalization guard in `convert_to_png` -/

/-- C10: the rescaling guard in `convert_to_png` only checks that the band
maximum is positive.  For the all-equal positive band `[5, 5]` the guard
passes while the divisor `max - min` is zero, so the division-by-zero branch
is reached; and for any band whose maximum is not positive, no rescaling
occurs at all — the data is passed unchanged to the 8-bit cast. -/
theorem C10_normalization_guard :
    (convert_to_png_guard [5, 5] = true ∧ convert_to_png_divisor [5, 5] = 0) ∧
    ∀ l : List ℚ, np_max l ≤ 0 → convert_to_png_normalize l = l := by
  refine ⟨⟨?_, ?_⟩, ?_⟩
  · simp [convert_to_png_guard, np_max]
  · simp [convert_to_png_divisor, np_max, np_min]
  · intro l h
    unfold convert_to_png_normalize
    rw [if_neg (not_lt.mpr h)]

/-- Witness for C10 at the concrete band `[-1, 0]`, whose maximum is zero:
the normalization leaves it unchanged. -/
theorem C10_normalization_guard_witness :
    convert_to_png_normalize [(-1 : ℚ), 0] = [(-1 : ℚ), 0] :=
  C10_normalization_guard.2 [(-1 : ℚ), 0] (by simp [np_max])

/-! ## C2: per-file success flag -/

/-- C2 counterexample: a run in which the mandatory PNG conversion stage
succeeds but metadata extraction fails is counted as failed by
`batch_process_files` (its `has_errors` flag is set), refuting the claim that
the success flag is true if and only if stage 2 succeeded. -/
theorem C2_success_flag_counterexample :
    file_counted_successful procConfigDefault ⟨true, false, true, true, true⟩ = false ∧
    (⟨true, false, true, true, true⟩ : StageEnv).pngOk = true := by
  exact ⟨rfl, rfl⟩

/-- C2 amended: a file is counted successful by the batch iff its validation
passed and all three of the metadata, PNG conversion, and world-file stages
succeeded; thumbnail and statistics outcomes never affect the flag. -/
theorem C2_amended_success_iff_all_mandatory_stages (cfg : ProcConfig) (e : StageEnv) :
    file_counted_successful cfg e =
      (e.validOk && e.metadataOk && e.pngOk && e.worldOk) := by
  rcases e with ⟨v, m, p, w, t⟩
  rcases cfg with ⟨g, s⟩
  cases v <;> cases m <;> cases p <;> cases w <;> cases t <;> cases g <;> cases s <;> rfl

/-! ## C9: claim result does not distinguish no-job from errors -/

/-- C9 counterexample: `claim_next_job` returns the same value, `none`, for a
well-formed 200 response with no job available, for a 500 protocol error, and
for a transport exception — the result does not distinguish the normal no-job
outcome from errors. -/
theorem C9_claim_counterexample :
    claim_next_job (.response 200 ⟨true, none⟩) = none ∧
    claim_next_job (.response 500 ⟨true, none⟩) = none ∧
    claim_next_job .exception = none :=
  ⟨rfl, rfl, rfl⟩

/-- C9 amended: the claim operation tolerates "no job available" as a normal
outcome — it returns `none` without raising — but collapses it with transport
and protocol errors: every no-job 200 response, every non-200 response, and
the exception case all yield the same `none` result, so the outcomes are
distinguishable only in logging, not in the returned value. -/
theorem C9_amended_claim_collapses_outcomes
    (b b2 : ClaimBody) (s : Nat) (hb : b.job = none) (hs : s ≠ 200) :
    claim_next_job (.response 200 b) = none ∧
    claim_next_job (.response s b2) = none ∧
    claim_next_job .exception = none := by
  refine ⟨?_, ?_, rfl⟩
  · simp [claim_next_job, hb]
  · simp [claim_next_job, hs]

/-- Witness for C9 amended at a concrete no-job body and a concrete 500
status. -/
theorem C9_amended_claim_collapses_outcomes_witness :
    claim_next_job (.response 200 ⟨true, none⟩) = none ∧
    claim_next_job (.response 500 ⟨false, none⟩) = none ∧
    claim_next_job .exception = none :=
  C9_amended_claim_collapses_outcomes ⟨true, none⟩ ⟨false, none⟩ 500 rfl (by decide)

/-! ## C8: maximum processing duration is not enforced -/

/-- C8: the configured `max_processing_time` is never consulted by
`process_job` — a fully successful job whose duration of 4000 seconds exceeds
the 3600-second bound still resolves through the `complete` transition and
never through `fail`, contradicting the specified active timeout
enforcement. -/
theorem C8_timeout_not_enforced :
    max_processing_time < envC8.processingDuration ∧
    ((process_job envC8 wfsEmpty).1.filter Ev.isTerminal = [Ev.complete]) ∧
    (process_job envC8 wfsEmpty).2.2 = true := by
  refine ⟨by decide, by decide, rfl⟩

/-! ## C1: heartbeat cancellation versus the terminal transition -/

/-- Every `process_job` trace decomposes as a prefix followed by the single
final cancellation event, where the prefix holds exactly one terminal
transition. -/
theorem trace_shape_helper (n : Nat) (b : Bool) (x : Ev)
    (hx : Ev.isTerminal x = true) :
    ∃ pre : List Ev,
      List.replicate n Ev.heartbeat ++ [x] ++
          (if b then [Ev.heartbeat] else []) ++ [Ev.cancelHeartbeat] =
        pre ++ [Ev.cancelHeartbeat] ∧
      Ev.cancelHeartbeat ∉ pre ∧
      (pre.filter Ev.isTerminal).length = 1 := by
  refine ⟨List.replicate n Ev.heartbeat ++ [x] ++
    (if b then [Ev.heartbeat] else []), by simp, ?_, ?_⟩
  · intro h
    rcases List.mem_append.mp h with h1 | h2
    · rcases List.mem_append.mp h1 with h3 | h4
      · exact cancel_not_mem_replicate n h3
      · simp only [List.mem_singleton] at h4
        rw [← h4] at hx
        exact absurd hx (by decide)
    · cases b with
      | true => simp at h2
      | false => simp at h2
  · rw [List.filter_append, List.filter_append, filter_isTerminal_replicate]
    cases x with
    | heartbeat => exact absurd hx (by decide)
    | cancelHeartbeat => exact absurd hx (by decide)
    | complete => cases b <;> simp [Ev.isTerminal]
    | fail m => cases b <;> simp [Ev.isTerminal]

/-- C1 counterexample: in the run `envC1` the heartbeat task is cancelled only
after the `complete` call is sent (cancellation happens in the `finally`
block), and one heartbeat fires between the `complete` call and the
cancellation — refuting both parts of the claimed ordering. -/
theorem C1_heartbeat_cancel_counterexample :
    (process_job envC1 wfsEmpty).1 =
      [Ev.heartbeat, Ev.complete, Ev.heartbeat, Ev.cancelHeartbeat] ∧
    hb_cancel_before_terminal (process_job envC1 wfsEmpty).1 = false ∧
    no_heartbeat_after_terminal (process_job envC1 wfsEmpty).1 = false :=
  ⟨by decide, by decide, by decide⟩

/-- C1 amended: in every run of `process_job` the heartbeat cancellation is
the unique final event of the trace and therefore occurs strictly after the
single terminal transition; the code cancels the heartbeat task in the
`finally` block, after — not before — `complete` or `fail` is sent, and a
heartbeat may still fire in between. -/
theorem C1_amended_heartbeat_cancelled_last (env : JobEnv) (fs : WFS) :
    ∃ pre : List Ev,
      (process_job env fs).1 = pre ++ [Ev.cancelHeartbeat] ∧
      Ev.cancelHeartbeat ∉ pre ∧
      (pre.filter Ev.isTerminal).length = 1 := by
  unfold process_job
  cases htask : env.taskSupported with
  | false =>
    simp only [htask, Bool.false_eq_true, not_false_eq_true, if_pos]
    exact trace_shape_helper _ _ _ rfl
  | true =>
    rcases hpj : process_geotiff_job env fs with ⟨res, fs2⟩
    simp only [htask, not_true, if_neg, hpj, Bool.true_eq_false,
      not_false_eq_true, ite_false, ite_true]
    cases res with
    | ok o => exact trace_shape_helper _ _ _ rfl
    | error e => exact trace_shape_helper _ _ _ rfl

/-! ## C6: jobs with zero staged input files -/

/-- C6 counterexample: a job whose single input is a zero-byte `.tif` file
that downloads successfully is not dropped by any validation — the worker
performs none at staging — so the job runs, the per-file processing error is
captured, and the job resolves through `complete`: the trace contains a
`complete` event and no `fail` event, contrary to the claimed fail-once
behaviour for this scenario. -/
theorem C6_zero_byte_counterexample :
    envC6.filesInfo = [⟨true, false, 200, 0, true⟩] ∧
    (process_job envC6 wfsEmpty).1 =
      [Ev.heartbeat, Ev.complete, Ev.cancelHeartbeat] :=
  ⟨rfl, by decide⟩

/-- When every listing entry either carries an error key or its stream
download fails, the download loop collects nothing beyond its accumulator. -/
theorem download_loop_all_fail (l : List WFileInfo) :
    ∀ (i : Nat) (acc : List Nat) (fs : WFS),
      (∀ fi ∈ l, fi.hasError = true ∨ fi.streamStatus ≠ 200) →
      (download_loop l i acc fs).1 = acc := by
  induction l with
  | nil => intro i acc fs _; rfl
  | cons fi rest ih =>
    intro i acc fs h
    have hfi := h fi (List.mem_cons_self fi rest)
    have hrest : ∀ g ∈ rest, g.hasError = true ∨ g.streamStatus ≠ 200 :=
      fun g hg => h g (List.mem_cons_of_mem fi hg)
    unfold download_loop
    by_cases he2 : fi.hasError = true
    · rw [if_pos he2]
      exact ih _ _ _ hrest
    · have hs : fi.streamStatus ≠ 200 := by
        rcases hfi with he | hs
        · exact absurd he he2
        · exact hs
      rw [if_neg he2, if_neg hs]
      exact ih _ _ _ hrest

/-- Shape of a `process_job` run whose processing body raises: the trace is
the heartbeats, the `fail` transition with the raised message, possibly one
more heartbeat, and the final cancellation; the run returns failure. -/
theorem process_job_error_shape (env : JobEnv) (fs : WFS) (msg : String)
    (fs2 : WFS) (ht : env.taskSupported = true)
    (hpj : process_geotiff_job env fs = (Except.error msg, fs2)) :
    process_job env fs =
      (List.replicate env.heartbeatsDuring Ev.heartbeat ++ [Ev.fail msg] ++
        (if env.heartbeatAfterTerminal then [Ev.heartbeat] else []) ++
        [Ev.cancelHeartbeat], fs2, false) := by
  unfold process_job
  rw [hpj, ht]
  simp

/-- C6 amended: for every claimed, supported job for which zero input files
are successfully downloaded during staging (every listed file either carries
an error key or its stream download fails), `process_job` resolves through
exactly one terminal transition, namely `fail` with the error message
"No input files downloaded", `complete` is never called, and the run returns
failure.  The worker performs no content validation at staging, so a
zero-byte file that downloads successfully does not trigger this path. -/
theorem C6_amended_fail_when_no_files_downloaded
    (env : JobEnv) (fs : WFS)
    (ht : env.taskSupported = true)
    (hu : env.urlListStatus = 200)
    (hne : env.filesInfo ≠ [])
    (hall : ∀ fi ∈ env.filesInfo, fi.hasError = true ∨ fi.streamStatus ≠ 200) :
    (process_job env fs).1.filter Ev.isTerminal =
      [Ev.fail "No input files downloaded"] ∧
    (process_job env fs).2.2 = false := by
  have hdl : (download_loop env.filesInfo 0 [] fs).1 = [] :=
    download_loop_all_fail env.filesInfo 0 [] fs hall
  have hpj : process_geotiff_job env fs =
      (Except.error "No input files downloaded",
        (download_loop env.filesInfo 0 [] fs).2) := by
    unfold process_geotiff_job download_input_files
    simp [hu, hne, hdl]
  rw [process_job_error_shape env fs _ _ ht hpj]
  refine ⟨?_, rfl⟩
  rw [List.filter_append, List.filter_append, List.filter_append,
    filter_isTerminal_replicate]
  cases env.heartbeatAfterTerminal <;> simp [Ev.isTerminal]

/-- Witness for C6 amended: a supported job with one listed file whose stream
download returns 404. -/
theorem C6_amended_fail_witness :
    (process_job ⟨true, 200, [⟨true, false, 404, 0, false⟩], 200, 0, false, 0⟩
        wfsEmpty).1.filter Ev.isTerminal =
      [Ev.fail "No input files downloaded"] ∧
    (process_job ⟨true, 200, [⟨true, false, 404, 0, false⟩], 200, 0, false, 0⟩
        wfsEmpty).2.2 = false :=
  C6_amended_fail_when_no_files_downloaded _ wfsEmpty rfl rfl (by decide)
    (by intro fi hfi
        simp only [List.mem_singleton] at hfi
        subst hfi
        exact Or.inr (by decide))

/-! ## C5: streaming download size ceiling -/

/-- With no network failure, the chunk loop raises as soon as the running
total exceeds the ceiling: if the loop starts within the ceiling but the
whole stream would push past it, the loop ends in an error. -/
theorem dl_loop_exceeds (chunks : List Nat) :
    ∀ total : Nat, total ≤ fm_max_file_size →
      fm_max_file_size < total + chunks.sum →
      ∃ e, dl_loop chunks total none = .error e := by
  induction chunks with
  | nil =>
    intro total hle hgt
    simp only [List.sum_nil, Nat.add_zero] at hgt
    exact absurd hle (Nat.not_le.mpr hgt)
  | cons c rest ih =>
    intro total hle hgt
    unfold dl_loop
    by_cases hx : total + c > fm_max_file_size
    · rw [if_pos hx]
      exact ⟨_, rfl⟩
    · rw [if_neg hx]
      have hle2 : total + c ≤ fm_max_file_size := Nat.not_lt.mp hx
      have hgt2 : fm_max_file_size < (total + c) + rest.sum := by
        simp only [List.sum_cons] at hgt
        omega
      simpa using ih (total + c) hle2 hgt2

/-- C5: a partial file is never retained after a failed or aborted streaming
download — whenever `_download_file_from_url` ends in an error, no local file
remains — and the moment the cumulative transferred byte count exceeds the
configured `max_file_size` ceiling, the transfer is aborted with an error and
the partially written file is deleted. -/
theorem C5_download_abort_discards_partial_file (env : DlEnv) :
    (exceptFails (download_file_from_url env).1 = true →
      (download_file_from_url env).2 = none) ∧
    (env.status = 200 → env.netFailBefore = none →
      fm_max_file_size < env.chunks.sum →
      exceptFails (download_file_from_url env).1 = true ∧
      (download_file_from_url env).2 = none) := by
  constructor
  · intro hf
    unfold download_file_from_url at hf ⊢
    by_cases hst : env.status ≠ 200
    · rw [if_pos hst]
    · rw [if_neg hst] at hf ⊢
      rcases hdl : dl_loop env.chunks 0 env.netFailBefore with e | t
      · rfl
      · rw [hdl] at hf
        simp [exceptFails] at hf
  · intro hst hnf hsum
    obtain ⟨e, he⟩ := dl_loop_exceeds env.chunks 0 (Nat.zero_le _)
      (by simpa using hsum)
    unfold download_file_from_url
    rw [if_neg (by simp [hst]), hnf, he]
    exact ⟨rfl, rfl⟩

/-- Witness for C5 at a concrete oversized stream: status 200, a single
chunk of `fm_max_file_size + 1` bytes, no network failure — the download
aborts and no file is retained. -/
theorem C5_download_abort_discards_partial_file_witness :
    exceptFails (download_file_from_url ⟨200, [104857601], none⟩).1 = true ∧
    (download_file_from_url ⟨200, [104857601], none⟩).2 = none :=
  (C5_download_abort_discards_partial_file ⟨200, [104857601], none⟩).2 rfl rfl
    (by decide)

/-! ## C3: batch isolation and per-file records -/

/-- After a dict assignment the assigned key is present. -/
theorem dictInsert_key_self {α : Type} (l : List (String × α)) (k : String)
    (v : α) : ∃ p ∈ dictInsert l k v, p.1 = k := by
  unfold dictInsert
  by_cases h : l.any (fun p => p.1 = k) = true
  · rw [if_pos h]
    rw [List.any_eq_true] at h
    obtain ⟨p, hp, hpk⟩ := h
    simp only [decide_eq_true_eq] at hpk
    refine ⟨(k, v), ?_, rfl⟩
    rw [List.mem_map]
    exact ⟨p, hp, by rw [if_pos hpk]⟩
  · rw [if_neg h]
    exact ⟨(k, v), List.mem_append_right _ (List.mem_singleton.mpr rfl), rfl⟩

/-- A dict assignment preserves the presence of every key. -/
theorem dictInsert_key_mono {α : Type} (l : List (String × α)) (k k2 : String)
    (v : α) (h : ∃ p ∈ l, p.1 = k2) :
    ∃ p ∈ dictInsert l k v, p.1 = k2 := by
  obtain ⟨p, hp, hpk2⟩ := h
  unfold dictInsert
  by_cases h : l.any (fun q => q.1 = k) = true
  · rw [if_pos h]
    by_cases hpk : p.1 = k
    · refine ⟨(k, v), ?_, ?_⟩
      · rw [List.mem_map]
        exact ⟨p, hp, by rw [if_pos hpk]⟩
      · rw [← hpk, hpk2]
    · refine ⟨p, ?_, hpk2⟩
      rw [List.mem_map]
      exact ⟨p, hp, by rw [if_neg hpk]⟩
  · rw [if_neg h]
    exact ⟨p, List.mem_append_left _ hp, hpk2⟩

/-- Folding the batch step preserves the presence of every record key. -/
theorem batch_fold_key_mono (cfg : ProcConfig) (inputs : List InputFile) :
    ∀ (st : BatchState) (k : String),
      (∃ p ∈ st.files, p.1 = k) →
      ∃ p ∈ (inputs.foldl (batch_step cfg) st).files, p.1 = k := by
  induction inputs with
  | nil => intro st k h; exact h
  | cons f rest ih =>
    intro st k h
    rw [List.foldl_cons]
    apply ih
    unfold batch_step
    cases h2 : process_geotiff_advanced cfg f.env with
    | ok r => exact dictInsert_key_mono _ _ _ _ h
    | error e => exact dictInsert_key_mono _ _ _ _ h

/-- After folding the batch step over the inputs, every input contributes a
record stored under its basename. -/
theorem batch_fold_key_self (cfg : ProcConfig) (inputs : List InputFile) :
    ∀ (st : BatchState), ∀ f ∈ inputs,
      ∃ p ∈ (inputs.foldl (batch_step cfg) st).files, p.1 = f.basename := by
  induction inputs with
  | nil => intro st f h; simp at h
  | cons g rest ih =>
    intro st f hf
    rw [List.foldl_cons]
    rcases List.mem_cons.mp hf with rfl | hmem
    · apply batch_fold_key_mono
      unfold batch_step
      cases h2 : process_geotiff_advanced cfg f.env with
      | ok r => exact dictInsert_key_self _ _ _
      | error e => exact dictInsert_key_self _ _ _
    · exact ih _ f hmem

/-- Each batch iteration increments exactly one of the two summary counters. -/
theorem batch_step_counts (cfg : ProcConfig) (st : BatchState) (f : InputFile) :
    (batch_step cfg st f).successful + (batch_step cfg st f).failed =
      st.successful + st.failed + 1 := by
  unfold batch_step
  cases h2 : process_geotiff_advanced cfg f.env with
  | ok r =>
    have hok : (if r.has_errors = true then st.successful else st.successful + 1) +
        (if r.has_errors = true then st.failed + 1 else st.failed) =
        st.successful + st.failed + 1 := by
      by_cases hr : r.has_errors = true
      · rw [if_pos hr, if_pos hr]
        omega
      · rw [if_neg hr, if_neg hr]
        omega
    exact hok
  | error e =>
    show st.successful + (st.failed + 1) = st.successful + st.failed + 1
    omega

/-- The summary counters of a batch fold add up to the starting counters plus
the number of inputs processed. -/
theorem batch_fold_counts (cfg : ProcConfig) (inputs : List InputFile) :
    ∀ st : BatchState,
      (inputs.foldl (batch_step cfg) st).successful +
        (inputs.foldl (batch_step cfg) st).failed =
      st.successful + st.failed + inputs.length := by
  induction inputs with
  | nil => intro st; simp
  | cons f rest ih =>
    intro st
    rw [List.foldl_cons]
    have h1 := ih (batch_step cfg st f)
    have h2 := batch_step_counts cfg st f
    simp only [List.length_cons]
    omega

/-- C3 counterexample: two input files that share the basename `x.tif`
(staged in different temporary directories) produce a single record in the
batch `files` dict — the second assignment overwrites the first — so the
batch does not produce exactly one outcome record for every input file. -/
theorem C3_record_count_counterexample :
    (batch_process_files procConfigDefault
      [⟨"x.tif", stageAllOk⟩, ⟨"x.tif", stageAllOk⟩]).files.length = 1 ∧
    ([⟨"x.tif", stageAllOk⟩, ⟨"x.tif", stageAllOk⟩] : List InputFile).length
      = 2 :=
  ⟨rfl, rfl⟩

/-- C3 amended: an exception raised while processing one file never escapes
the batch — every input file is processed and accounted for: the
`successful` and `failed` counters add up to the number of input files, and
every input file has an outcome record stored under its basename.  Records
are keyed by basename, so inputs sharing a basename collapse into one record
(the later file overwrites the earlier); for distinct basenames there is
exactly one record per input file. -/
theorem C3_amended_batch_isolation (cfg : ProcConfig)
    (inputs : List InputFile) :
    ((batch_process_files cfg inputs).successful +
      (batch_process_files cfg inputs).failed = inputs.length) ∧
    ∀ f ∈ inputs,
      ∃ p ∈ (batch_process_files cfg inputs).files, p.1 = f.basename := by
  constructor
  · have h := batch_fold_counts cfg inputs ⟨[], 0, 0⟩
    simpa [batch_process_files] using h
  · intro f hf
    exact batch_fold_key_self cfg inputs ⟨[], 0, 0⟩ f hf

/-- Witness for C3 amended at a concrete one-file batch. -/
theorem C3_amended_batch_isolation_witness :
    ((batch_process_files procConfigDefault [⟨"x.tif", stageAllOk⟩]).successful +
      (batch_process_files procConfigDefault [⟨"x.tif", stageAllOk⟩]).failed
        = 1) ∧
    ∃ p ∈ (batch_process_files procConfigDefault
      [⟨"x.tif", stageAllOk⟩]).files, p.1 = "x.tif" :=
  ⟨(C3_amended_batch_isolation procConfigDefault [⟨"x.tif", stageAllOk⟩]).1,
   (C3_amended_batch_isolation procConfigDefault [⟨"x.tif", stageAllOk⟩]).2
     ⟨"x.tif", stageAllOk⟩ (List.mem_singleton.mpr rfl)⟩

/-! ## C4: workspace cleanup on exit paths -/

/-- C4 counterexample: a job whose single listed input file fails to stream
(status 404) exits `process_geotiff_job` through the failure path, yet the
temp directory created for that file before the stream was opened remains on
disk — no cleanup runs on the failure exit. -/
theorem C4_cleanup_counterexample :
    process_geotiff_job envC4 wfsEmpty =
      (.error "No input files downloaded", ⟨[WDir.inDir 0], []⟩) ∧
    (⟨[WDir.inDir 0], []⟩ : WFS).dirs ≠ [] :=
  ⟨by rfl, by decide⟩

/-- The download loop collects exactly the indices of the files it stages,
and appends exactly the corresponding staged files to the filesystem. -/
theorem download_loop_files_spec (l : List WFileInfo) :
    ∀ (i : Nat) (acc : List Nat) (fs : WFS), ∃ new : List Nat,
      (download_loop l i acc fs).1 = acc ++ new ∧
      (download_loop l i acc fs).2.files = fs.files ++ new.map WFile.inFile := by
  induction l with
  | nil =>
    intro i acc fs
    exact ⟨[], by simp [download_loop], by simp [download_loop]⟩
  | cons fi rest ih =>
    intro i acc fs
    unfold download_loop
    by_cases he : fi.hasError = true
    · rw [if_pos he]
      exact ih (i + 1) acc fs
    · rw [if_neg he]
      by_cases hs : fi.streamStatus = 200
      · rw [if_pos hs]
        obtain ⟨new, h1, h2⟩ := ih (i + 1) (acc ++ [i])
          ⟨fs.dirs ++ [WDir.inDir i], fs.files ++ [WFile.inFile i]⟩
        refine ⟨i :: new, ?_, ?_⟩
        · rw [h1]
          simp
        · rw [h2]
          simp
      · rw [if_neg hs]
        obtain ⟨new, h1, h2⟩ := ih (i + 1) acc ⟨fs.dirs ++ [WDir.inDir i], fs.files⟩
        exact ⟨new, h1, h2⟩

/-- The processing loop returns exactly the output files it appends to the
filesystem. -/
theorem process_loop_files_spec (env : JobEnv) (l : List Nat) :
    ∀ (outs : List WFile) (recs : List ProcRecord) (fs : WFS),
      ∃ new : List WFile,
        (process_loop env l outs recs fs).1 = outs ++ new ∧
        (process_loop env l outs recs fs).2.2.files = fs.files ++ new := by
  induction l with
  | nil =>
    intro outs recs fs
    exact ⟨[], by simp [process_loop], by simp [process_loop]⟩
  | cons i rest ih =>
    intro outs recs fs
    unfold process_loop
    by_cases ht : (env.filesInfo.getD i default).isTiff = true
    · rw [if_neg (not_not_intro ht)]
      by_cases hp : (env.filesInfo.getD i default).procFails = true
      · rw [if_pos hp]
        obtain ⟨new, h1, h2⟩ := ih outs (recs ++ [⟨i, false⟩])
          ⟨fs.dirs ++ [WDir.outDir i], fs.files⟩
        exact ⟨new, h1, h2⟩
      · rw [if_neg hp]
        obtain ⟨new, h1, h2⟩ := ih (outs ++ [WFile.png i, WFile.pgw i, WFile.meta i])
          (recs ++ [⟨i, true⟩])
          ⟨fs.dirs ++ [WDir.outDir i],
            fs.files ++ [WFile.png i, WFile.pgw i, WFile.meta i]⟩
        refine ⟨[WFile.png i, WFile.pgw i, WFile.meta i] ++ new, ?_, ?_⟩
        · rw [h1]
          simp
        · rw [h2]
          simp
    · rw [if_pos ht]
      exact ih outs recs fs

/-- Names for the intermediate states of a successful `process_geotiff_job`
run reached through the non-empty download branch. -/
theorem process_geotiff_job_success_shape (env : JobEnv)
    (hu : env.urlListStatus = 200) (hni : env.filesInfo ≠ [])
    (h0 : (download_loop env.filesInfo 0 [] wfsEmpty).1 ≠ []) :
    process_geotiff_job env wfsEmpty =
      (.ok ⟨(process_loop env (download_loop env.filesInfo 0 [] wfsEmpty).1
              [] [] (download_loop env.filesInfo 0 [] wfsEmpty).2).1,
            (process_loop env (download_loop env.filesInfo 0 [] wfsEmpty).1
              [] [] (download_loop env.filesInfo 0 [] wfsEmpty).2).2.1⟩,
       cleanup_temp_files
         ((download_loop env.filesInfo 0 [] wfsEmpty).1.map WFile.inFile ++
           (process_loop env (download_loop env.filesInfo 0 [] wfsEmpty).1
             [] [] (download_loop env.filesInfo 0 [] wfsEmpty).2).1)
         (process_loop env (download_loop env.filesInfo 0 [] wfsEmpty).1
           [] [] (download_loop env.filesInfo 0 [] wfsEmpty).2).2.2) := by
  unfold process_geotiff_job download_input_files
  simp [hu, hni, h0]

/-- Cleanup removes every file of the filesystem when every file is in the
cleanup list. -/
theorem cleanup_removes_listed (paths : List WFile) (fs : WFS)
    (hall : ∀ p ∈ fs.files, p ∈ paths) :
    (cleanup_temp_files paths fs).files = [] := by
  show fs.files.filter (fun p => decide (p ∉ paths)) = []
  rw [List.filter_eq_nil_iff]
  intro a ha
  simp only [decide_eq_true_eq]
  exact fun hn => hn (hall a ha)

/-- C4 amended: workspace cleanup runs only on the success path of
`process_geotiff_job` — whenever the job body returns normally, every staged
input file and every produced output file has been removed from the
filesystem; on the failure exit paths no cleanup call is made, and (per the
counterexample) temp directories created for failed downloads are retained. -/
theorem C4_amended_success_path_cleanup (env : JobEnv) (r : JobOutput)
    (fs2 : WFS) (h : process_geotiff_job env wfsEmpty = (.ok r, fs2)) :
    fs2.files = [] := by
  by_cases hu : env.urlListStatus = 200
  case neg =>
    have hbad : process_geotiff_job env wfsEmpty =
        (.error "Failed to get download URLs", wfsEmpty) := by
      unfold process_geotiff_job download_input_files
      simp [hu]
    rw [hbad] at h
    simp at h
  by_cases hni : env.filesInfo = []
  case pos =>
    have hbad : process_geotiff_job env wfsEmpty =
        (.error "No input files found for this job", wfsEmpty) := by
      unfold process_geotiff_job download_input_files
      simp [hu, hni]
    rw [hbad] at h
    simp at h
  by_cases h0 : (download_loop env.filesInfo 0 [] wfsEmpty).1 = []
  case pos =>
    have hbad : process_geotiff_job env wfsEmpty =
        (.error "No input files downloaded",
          (download_loop env.filesInfo 0 [] wfsEmpty).2) := by
      unfold process_geotiff_job download_input_files
      simp [hu, hni, h0]
    rw [hbad] at h
    simp at h
  have heq := process_geotiff_job_success_shape env hu hni h0
  rw [heq, Prod.mk.injEq] at h
  obtain ⟨-, h2⟩ := h
  rw [← h2]
  apply cleanup_removes_listed
  obtain ⟨new, hd1, hd2⟩ := download_loop_files_spec env.filesInfo 0 [] wfsEmpty
  obtain ⟨pnew, hp1, hp2⟩ := process_loop_files_spec env
    (download_loop env.filesInfo 0 [] wfsEmpty).1 [] []
    (download_loop env.filesInfo 0 [] wfsEmpty).2
  intro p hp
  rw [hp2, hd2] at hp
  simp only [wfsEmpty, List.nil_append] at hp
  rcases List.mem_append.mp hp with hin | hout
  · refine List.mem_append_left _ ?_
    rw [hd1]
    simpa using hin
  · refine List.mem_append_right _ ?_
    rw [hp1]
    simpa using hout

/-- Witness for C4 amended: a fully successful single-file job ends with no
staged or produced file left in the workspace. -/
theorem C4_amended_success_path_cleanup_witness :
    (process_geotiff_job ⟨true, 200, [⟨true, false, 200, 5, false⟩], 200, 0,
        false, 10⟩ wfsEmpty).2.files = [] :=
  C4_amended_success_path_cleanup
    ⟨true, 200, [⟨true, false, 200, 5, false⟩], 200, 0, false, 10⟩
    ⟨[WFile.png 0, WFile.pgw 0, WFile.meta 0], [⟨0, true⟩]⟩ _ (by rfl)
